import Mathlib

/-!
Verification of the dev-session reconciliation core of
`paypilot_dev_session_service` against its design specification.

The Go source is shallowly embedded: the Kubernetes driver
(`internal/models/session.go`, kubernetes client document:
`CreateDevContainer`, `DeleteDevContainer`, `GetServiceEndpoints`,
`GetContainerStatus`, `isValidProjectUUID`) and the HTTP handlers
(`internal/handlers/session.go`: `GetOrCreateSessionByProjectUUID`,
`CreateSession`, `DeleteSession`, `ListSessions`) become pure Lean
functions.  External effects (helm / kubectl process invocations, the
request clock, generated tokens, client IP) are passed in through an
explicit `Env` record, and every driver function additionally reports
how many external process calls it performed, so that call-count
properties can be stated.  The GORM-backed persistence layer becomes an
explicit `Store` of rows with soft deletion.
-/

namespace PayPilot

/-- ASCII hex digit, as matched by the character classes of the
`isValidProjectUUID` regular expression `[a-fA-F0-9]`.
Codes: 48..57 = 0..9, 97..102 = a..f, 65..70 = A..F. -/
def isHexChar (c : Char) : Bool :=
  (48 ≤ c.val && c.val ≤ 57) || (97 ≤ c.val && c.val ≤ 102) || (65 ≤ c.val && c.val ≤ 70)

/-- Embeds `isValidProjectUUID` (kubernetes client): the identity must
match `^[a-fA-F0-9]{8}-[a-fA-F0-9]{4}-[a-fA-F0-9]{4}-[a-fA-F0-9]{4}-[a-fA-F0-9]{12}$`,
i.e. 36 characters, hyphens (code 45) exactly at offsets 8, 13, 18, 23,
hex digits everywhere else. -/
def isValidProjectUUID (s : String) : Bool :=
  let cs := s.data
  cs.length == 36 &&
    (cs.enum.all fun ic =>
      if ic.1 == 8 || ic.1 == 13 || ic.1 == 18 || ic.1 == 23 then ic.2.val == 45
      else isHexChar ic.2)

/-- Embeds `ServiceEndpoints` (kubernetes client). -/
structure ServiceEndpoints where
  previewURL  : String
  previewPath : String
  chatURL     : String
  chatPath    : String
  vscodeURL   : String
  vscodePath  : String
  clusterIP   : String
deriving DecidableEq, Repr

/-- The outcome of the external world for one request: the generated
token, request metadata, the clock, and the exit status / output of the
helm and kubectl process invocations the driver would make.  Each field
is the value the corresponding effectful call would return. -/
structure Env where
  token          : String
  clientIP       : String
  userAgent      : String
  /-- request time, in hours (the code only ever adds `24*365` hours). -/
  now            : Nat
  /-- `helm install` exits non-zero (covers timeouts: `--timeout 5m`). -/
  applyErr       : Bool
  /-- `kubectl get service ... clusterIP` exits non-zero. -/
  kubectlErr     : Bool
  /-- stdout of the `kubectl get service` call. -/
  kubectlOutput  : String
  /-- `helm uninstall` exits non-zero. -/
  removeErr      : Bool
  /-- `helm status` exits non-zero. -/
  statusErr      : Bool
  /-- `json.Unmarshal` of the `helm status` output fails. -/
  statusParseErr : Bool
  /-- the `.info.status` field of the parsed `helm status` JSON. -/
  statusRaw      : String
deriving DecidableEq, Repr

/-- Result of a driver operation: the Go `(value, error)` pair as an
`Except`, plus the number of external (helm/kubectl) process
invocations the operation performed. -/
structure DriverResult (α : Type) where
  result   : Except String α
  extCalls : Nat
deriving Repr

/-- ASCII whitespace as trimmed by Go's `strings.TrimSpace`
(space 32, tab 9, newline 10, carriage return 13; the full Go version
also trims other Unicode spaces, which the service never receives from
`kubectl -o jsonpath`). -/
def isSpaceChar (c : Char) : Bool :=
  c.val == 32 || c.val == 9 || c.val == 10 || c.val == 13

/-- Embeds `strings.TrimSpace`. -/
def trimString (s : String) : String :=
  String.mk (((s.data.dropWhile isSpaceChar).reverse.dropWhile isSpaceChar).reverse)

/-- Embeds `strings.ToLower` (ASCII case folding, which is all the helm
status vocabulary uses). -/
def lowerString (s : String) : String :=
  String.mk (s.data.map Char.toLower)

/-- Embeds `GetServiceEndpoints` (kubernetes client).  The Go function
runs one `kubectl get service` call, trims its output, and on error /
empty / `<none>` output returns the three static route paths with empty
addresses; otherwise it builds the three URLs from the ClusterIP.  Its
Go `error` return value is `nil` on every path, so the embedding
returns the endpoint set directly. -/
def getServiceEndpoints (env : Env) : ServiceEndpoints :=
  let clusterIP := trimString env.kubectlOutput
  if env.kubectlErr || clusterIP == "" || clusterIP == "<none>" then
    { previewURL := "", previewPath := "/preview"
      chatURL := "", chatPath := "/chat"
      vscodeURL := "", vscodePath := "/vscode"
      clusterIP := "" }
  else
    { previewURL := "http://" ++ clusterIP ++ "/preview", previewPath := "/preview"
      chatURL := "http://" ++ clusterIP ++ "/chat", chatPath := "/chat"
      vscodeURL := "http://" ++ clusterIP ++ "/vscode", vscodePath := "/vscode"
      clusterIP := clusterIP }

/-- Embeds `CreateDevContainer` (the Driver's `Apply`).  It first
validates the project UUID and returns the
`invalid project UUID format` error with **no** external call;
otherwise it runs `helm install` (one external call) and, on success,
`GetServiceEndpoints` (one more external call, the kubectl query). -/
def createDevContainer (env : Env) (projectUUID : String) (_projectID _userID : Nat) :
    DriverResult ServiceEndpoints :=
  if !isValidProjectUUID projectUUID then
    { result := .error ("invalid project UUID format: " ++ projectUUID), extCalls := 0 }
  else if env.applyErr then
    { result := .error ("helm install failed"), extCalls := 1 }
  else
    { result := .ok (getServiceEndpoints env), extCalls := 2 }

/-- Embeds `DeleteDevContainer` (the Driver's `Remove`).  The Go
function performs **no** identity validation: it builds the release
name from the identity and immediately runs `helm uninstall` (one
external call). -/
def deleteDevContainer (env : Env) (_projectUUID : String) : DriverResult Unit :=
  if env.removeErr then
    { result := .error ("helm uninstall failed"), extCalls := 1 }
  else
    { result := .ok (), extCalls := 1 }

/-- Embeds the pure status translation inside `GetContainerStatus`: the
`switch strings.ToLower(status.Info.Status)` mapping from the helm
vocabulary to the service's status strings.  Unmatched input falls to
the `default` branch, which returns `"unknown"`. -/
def translateHelmStatus (s : String) : String :=
  let ls := lowerString s
  if ls == "deployed" then "running"
  else if ls == "pending-install" || ls == "pending-upgrade" || ls == "pending-rollback" then
    "pending"
  else if ls == "failed" then "error"
  else if ls == "uninstalling" || ls == "uninstalled" then "stopped"
  else "unknown"

/-- The raw helm statuses that the `switch` in `GetContainerStatus`
recognizes with an explicit case. -/
def recognizedHelmStatuses : List String :=
  ["deployed", "pending-install", "pending-upgrade", "pending-rollback",
   "failed", "uninstalling", "uninstalled"]

/-- Embeds `GetContainerStatus` (the Driver's `Status`).  No identity
validation: it runs `helm status` (one external call) unconditionally;
a non-zero exit yields `("error", err)`, a JSON parse failure yields
`("unknown", err)`, otherwise the translated status with a nil error. -/
def getContainerStatus (env : Env) (_namespace _releaseName : String) : DriverResult String :=
  if env.statusErr then
    { result := .error ("helm status failed"), extCalls := 1 }
  else if env.statusParseErr then
    { result := .error ("failed to parse Helm status JSON"), extCalls := 1 }
  else
    { result := .ok (translateHelmStatus env.statusRaw), extCalls := 1 }

/-- The persisted session row.  The `models.Session` file checked into
`internal/models` is an outdated variant that lacks the project fields
its callers use; the field list here is reconstructed from every use in
`internal/handlers/session.go` (ProjectUUID, ProjectID, Namespace,
Status, ContainerName, the six endpoint fields, Token, ExpiresAt,
IPAddress, UserAgent, IsActive) together with the GORM base columns
(surrogate `id`, soft-delete marker).  `nspace` stands for the Go field
`Namespace` (a Lean keyword); `deleted` models `DeletedAt != NULL`. -/
structure Session where
  id            : Nat
  userID        : Nat
  projectID     : Nat
  projectUUID   : String
  token         : String
  /-- expiry time in hours (the code sets `now + 24*365` hours). -/
  expiresAt     : Nat
  nspace        : String
  status        : String
  containerName : String
  ipAddress     : String
  userAgent     : String
  previewURL    : String
  previewPath   : String
  chatURL       : String
  chatPath      : String
  vscodeURL     : String
  vscodePath    : String
  isActive      : Bool
  deleted       : Bool
deriving DecidableEq, Repr

/-- The session table: its rows plus the next value of the
auto-incremented surrogate key. -/
structure Store where
  rows   : List Session
  nextId : Nat
deriving DecidableEq, Repr

/-- The empty table, as after `AutoMigrate` on a fresh database. -/
def Store.empty : Store := { rows := [], nextId := 1 }

/-- Row predicate of the handler query
`WHERE project_uuid = ? AND is_active = ?` (with `true`), under GORM's
default scope, which also excludes soft-deleted rows. -/
def activeFor (x : String) (s : Session) : Bool :=
  s.projectUUID == x && s.isActive && !s.deleted

/-- Embeds the lookup
`DB.Where("project_uuid = ? AND is_active = ?", uuid, true).First(...)`. -/
def findActive (st : Store) (x : String) : Option Session :=
  st.rows.find? (activeFor x)

/-- Number of active (non-deleted) rows for one project identity. -/
def countActive (st : Store) (x : String) : Nat :=
  st.rows.countP (activeFor x)

/-- Embeds `DB.First(&session, id)` (GORM's default scope excludes
soft-deleted rows). -/
def findById (st : Store) (i : Nat) : Option Session :=
  st.rows.find? (fun s => s.id == i && !s.deleted)

/-- Modelled from the spec: the persisted model carrying
`projectIdentity` is absent from the checked-in sources (the
`models.Session` present lacks the field entirely although the handlers
read and write it), so its declared uniqueness constraint is taken from
the spec's data model: "exactly one active SessionRecord per distinct
`projectIdentity` at any time — enforced as a uniqueness constraint".
`insertUnique` embeds `DB.Create`: it assigns the surrogate key and
appends the row, but rejects (GORM surfaces a unique-constraint error,
the handlers answer 500 and leave the store unchanged) an active,
non-deleted row whose `projectUUID` is already held by an active row. -/
def insertUnique (st : Store) (s : Session) : Option (Store × Session) :=
  if s.isActive && !s.deleted && (findActive st s.projectUUID).isSome then
    none
  else
    let stored := { s with id := st.nextId }
    some ({ rows := st.rows ++ [stored], nextId := st.nextId + 1 }, stored)

/-- Embeds the soft delete `DB.Delete(&session)`: GORM issues
`UPDATE sessions SET deleted_at = now WHERE id = ? AND deleted_at IS NULL`. -/
def softDelete (st : Store) (i : Nat) : Store :=
  { st with
    rows := st.rows.map fun s =>
      if s.id == i && !s.deleted then { s with deleted := true } else s }

/-- Outcome of a handler that answers with (at most) one session
record: the store after the request, the record sent in the response
body (`none` on the 4xx/5xx paths), the number of `CreateDevContainer`
(Driver `Apply`) invocations, the number of external helm/kubectl
process invocations, and the HTTP status. -/
structure HandlerResult where
  store      : Store
  record     : Option Session
  applyCalls : Nat
  extCalls   : Nat
  httpStatus : Nat
deriving DecidableEq, Repr

/-- Embeds `GetOrCreateSessionByProjectUUID` with the Kubernetes client
present (the service is constructed with one).  Faithful paths: empty
identity → 400; an active record for the identity exists → return it
with no driver call and no store write; otherwise build the new record
(`status=pending`, token/expiry/namespace defaults, `IsActive=true`),
call `CreateDevContainer` once, absorb its failure into
`status="error"` or copy the endpoints with `status="running"`, then
persist; a unique-constraint violation on the insert is the handler's
500 path. -/
def getOrCreateSessionByProjectUUID (env : Env) (st : Store) (projectUUID : String)
    (userID projectID : Nat) : HandlerResult :=
  if projectUUID == "" then
    { store := st, record := none, applyCalls := 0, extCalls := 0, httpStatus := 400 }
  else
    match findActive st projectUUID with
    | some s =>
      { store := st, record := some s, applyCalls := 0, extCalls := 0, httpStatus := 200 }
    | none =>
      let base : Session :=
        { id := 0, userID := userID, projectID := projectID, projectUUID := projectUUID
          token := env.token, expiresAt := env.now + 24 * 365, nspace := projectUUID
          status := "pending", containerName := "", ipAddress := env.clientIP
          userAgent := env.userAgent
          previewURL := "", previewPath := "", chatURL := "", chatPath := ""
          vscodeURL := "", vscodePath := "", isActive := true, deleted := false }
      let d := createDevContainer env projectUUID projectID userID
      let sess : Session :=
        match d.result with
        | .error _ => { base with status := "error" }
        | .ok ep =>
          { base with
            status := "running", containerName := "dev-session-" ++ projectUUID
            ipAddress := ep.clusterIP
            previewURL := ep.previewURL, previewPath := ep.previewPath
            chatURL := ep.chatURL, chatPath := ep.chatPath
            vscodeURL := ep.vscodeURL, vscodePath := ep.vscodePath }
      match insertUnique st sess with
      | none =>
        { store := st, record := none, applyCalls := 1, extCalls := d.extCalls
          httpStatus := 500 }
      | some (st2, stored) =>
        { store := st2, record := some stored, applyCalls := 1, extCalls := d.extCalls
          httpStatus := 200 }

/-- The field-defaulting phase of `CreateSession`: token, expiry,
request metadata, namespace and status defaults applied to the bound
JSON input, in the order the Go handler applies them.  The soft-delete
column is not bindable from JSON, so it is forced to `false`. -/
def preparedSession (env : Env) (input : Session) : Session :=
  let s0 := { input with deleted := false }
  let s1 := if s0.token == "" then { s0 with token := env.token } else s0
  let s2 := if s1.expiresAt == 0 then { s1 with expiresAt := env.now + 24 * 365 } else s1
  let s3 := { s2 with ipAddress := env.clientIP, userAgent := env.userAgent }
  let s4 :=
    if s3.nspace == "" && s3.projectUUID != "" then { s3 with nspace := s3.projectUUID }
    else s3
  if s4.status == "" then { s4 with status := "pending" } else s4

/-- The driver phase of `CreateSession`: when the input carries a
project UUID the dev container is created and the outcome folded into
the record exactly as in `GetOrCreate`; returns the record together
with the `CreateDevContainer` invocation count and the external call
count. -/
def appliedSession (env : Env) (s5 : Session) : Session × Nat × Nat :=
  if s5.projectUUID != "" then
    match (createDevContainer env s5.projectUUID s5.projectID s5.userID).result with
    | .error _ =>
      ({ s5 with status := "error" },
        1, (createDevContainer env s5.projectUUID s5.projectID s5.userID).extCalls)
    | .ok ep =>
      ({ s5 with
          status := "running", containerName := "dev-session-" ++ s5.projectUUID
          ipAddress := ep.clusterIP
          previewURL := ep.previewURL, previewPath := ep.previewPath
          chatURL := ep.chatURL, chatPath := ep.chatPath
          vscodeURL := ep.vscodeURL, vscodePath := ep.vscodePath },
        1, (createDevContainer env s5.projectUUID s5.projectID s5.userID).extCalls)
  else (s5, 0, 0)

/-- Embeds `CreateSession` (POST /sessions) with the Kubernetes client
present.  `ShouldBindJSON` requires a non-zero `user_id`
(`binding:"required"`); then the defaulting phase, the driver phase and
the guarded insert mirror the Go handler. -/
def createSession (env : Env) (st : Store) (input : Session) : HandlerResult :=
  if input.userID == 0 then
    { store := st, record := none, applyCalls := 0, extCalls := 0, httpStatus := 400 }
  else
    match insertUnique st ((appliedSession env (preparedSession env input)).1) with
    | none =>
      { store := st, record := none
        applyCalls := (appliedSession env (preparedSession env input)).2.1
        extCalls := (appliedSession env (preparedSession env input)).2.2
        httpStatus := 500 }
    | some (st2, stored) =>
      { store := st2, record := some stored
        applyCalls := (appliedSession env (preparedSession env input)).2.1
        extCalls := (appliedSession env (preparedSession env input)).2.2
        httpStatus := 201 }

/-- Outcome of `DeleteSession`: the store after the request, the HTTP
status, the number of `DeleteDevContainer` (Driver `Remove`)
invocations, and the external process calls performed. -/
structure DeleteResult where
  store       : Store
  httpStatus  : Nat
  removeCalls : Nat
  extCalls    : Nat
deriving DecidableEq, Repr

/-- Embeds `DeleteSession` (DELETE /sessions/:id) with the Kubernetes
client present: 404 when no (non-deleted) row has the id; otherwise the
driver removal is attempted when the row carries a project UUID, its
failure is only logged ("Continue with DB deletion even if K8s deletion
fails"), and the row is soft-deleted with a 204 answer. -/
def deleteSession (env : Env) (st : Store) (i : Nat) : DeleteResult :=
  match findById st i with
  | none => { store := st, httpStatus := 404, removeCalls := 0, extCalls := 0 }
  | some s =>
    let calls :=
      if s.projectUUID != "" then (1, (deleteDevContainer env s.projectUUID).extCalls)
      else (0, 0)
    { store := softDelete st i, httpStatus := 204
      removeCalls := calls.1, extCalls := calls.2 }

/-- One API operation against the session store, for reachability
statements: the three operations that create or remove records. -/
inductive Op where
  | getOrCreate (env : Env) (projectUUID : String) (userID projectID : Nat)
  | create (env : Env) (input : Session)
  | delete (env : Env) (id : Nat)

/-- The store after one operation. -/
def stepOp (st : Store) : Op → Store
  | .getOrCreate env x u p => (getOrCreateSessionByProjectUUID env st x u p).store
  | .create env input => (createSession env st input).store
  | .delete env i => (deleteSession env st i).store

/-- The store reached from the fresh database by a sequence of
operations. -/
def runOps (ops : List Op) : Store :=
  ops.foldl stepOp Store.empty

/-- The record `GetOrCreateSessionByProjectUUID` persists when the
driver call fails (validation or helm): the freshly built record with
`status="error"` and untouched endpoint fields, carrying the surrogate
key the insert assigns. -/
def errorRecord (env : Env) (st : Store) (x : String) (u p : Nat) : Session :=
  { id := st.nextId, userID := u, projectID := p, projectUUID := x
    token := env.token, expiresAt := env.now + 24 * 365, nspace := x
    status := "error", containerName := "", ipAddress := env.clientIP
    userAgent := env.userAgent
    previewURL := "", previewPath := "", chatURL := "", chatPath := ""
    vscodeURL := "", vscodePath := "", isActive := true, deleted := false }

/-- The record `GetOrCreateSessionByProjectUUID` persists when the
driver call succeeds with endpoint set `ep`. -/
def runningRecord (env : Env) (st : Store) (x : String) (u p : Nat)
    (ep : ServiceEndpoints) : Session :=
  { id := st.nextId, userID := u, projectID := p, projectUUID := x
    token := env.token, expiresAt := env.now + 24 * 365, nspace := x
    status := "running", containerName := "dev-session-" ++ x
    ipAddress := ep.clusterIP, userAgent := env.userAgent
    previewURL := ep.previewURL, previewPath := ep.previewPath
    chatURL := ep.chatURL, chatPath := ep.chatPath
    vscodeURL := ep.vscodeURL, vscodePath := ep.vscodePath
    isActive := true, deleted := false }

/-- A concrete environment: every external call succeeds and the
resolver's kubectl query prints the address 10.0.0.5. -/
def envOkResolve : Env :=
  { token := "tok", clientIP := "9.9.9.9", userAgent := "ua", now := 0
    applyErr := false, kubectlErr := false, kubectlOutput := "10.0.0.5"
    removeErr := false, statusErr := false, statusParseErr := false
    statusRaw := "deployed" }

/-- A concrete active session row, as `GetOrCreate` would persist it
after a fully successful reconciliation. -/
def sampleActive : Session :=
  { id := 1, userID := 1, projectID := 2
    projectUUID := "11111111-1111-1111-1111-111111111111"
    token := "tok", expiresAt := 8760
    nspace := "11111111-1111-1111-1111-111111111111"
    status := "running"
    containerName := "dev-session-11111111-1111-1111-1111-111111111111"
    ipAddress := "10.0.0.5", userAgent := "ua"
    previewURL := "http://10.0.0.5/preview", previewPath := "/preview"
    chatURL := "http://10.0.0.5/chat", chatPath := "/chat"
    vscodeURL := "http://10.0.0.5/vscode", vscodePath := "/vscode"
    isActive := true, deleted := false }

/-- A store holding exactly the one active sample row. -/
def sampleStore : Store := { rows := [sampleActive], nextId := 2 }


/-! ### Supporting lemmas -/

lemma find?_append_singleton {α : Type} {p : α → Bool} {l : List α} {a : α}
    (hl : l.find? p = none) (ha : p a = true) : (l ++ [a]).find? p = some a := by
  rw [List.find?_append, hl, List.find?_cons_of_pos _ ha]
  rfl

lemma mem_eq_of_length_le_one {α : Type} {l : List α} (h : l.length ≤ 1)
    {a b : α} (ha : a ∈ l) (hb : b ∈ l) : a = b := by
  match l with
  | [] => cases ha
  | [x] =>
    rw [List.mem_singleton] at ha hb
    rw [ha, hb]
  | x :: y :: t => simp at h

lemma countActive_eq_zero_of_findActive_none {st : Store} {x : String}
    (h : findActive st x = none) : countActive st x = 0 :=
  List.countP_eq_zero.mpr (List.find?_eq_none.mp h)

lemma findActive_eq_none_of_countActive_eq_zero {st : Store} {x : String}
    (h : countActive st x = 0) : findActive st x = none :=
  List.find?_eq_none.mpr (List.countP_eq_zero.mp h)

/-- A guarded insert succeeds when no active row holds the project
identity, and then simply appends the row with the fresh key. -/
lemma insertUnique_eq_some {st : Store} {s : Session}
    (h : findActive st s.projectUUID = none) :
    insertUnique st s =
      some ({ rows := st.rows ++ [{ s with id := st.nextId }], nextId := st.nextId + 1 },
        { s with id := st.nextId }) := by
  unfold insertUnique
  rw [h]
  simp

/-- Unfolding of the creation path of `GetOrCreateSessionByProjectUUID`
when the driver call fails. -/
lemma getOrCreate_error_case (env : Env) (st : Store) (x : String) (u p : Nat)
    (hx : ¬ x = "") (hnone : findActive st x = none) {e : String}
    (hd : (createDevContainer env x p u).result = .error e) :
    getOrCreateSessionByProjectUUID env st x u p =
      { store := { rows := st.rows ++ [errorRecord env st x u p], nextId := st.nextId + 1 }
        record := some (errorRecord env st x u p)
        applyCalls := 1, extCalls := (createDevContainer env x p u).extCalls
        httpStatus := 200 } := by
  simp only [getOrCreateSessionByProjectUUID, if_neg (by simp [hx] : ¬ ((x == "") = true)),
    hnone, hd]
  rw [insertUnique_eq_some (by exact hnone)]
  rfl

/-- Unfolding of the creation path of `GetOrCreateSessionByProjectUUID`
when the driver call succeeds. -/
lemma getOrCreate_ok_case (env : Env) (st : Store) (x : String) (u p : Nat)
    (hx : ¬ x = "") (hnone : findActive st x = none) {ep : ServiceEndpoints}
    (hd : (createDevContainer env x p u).result = .ok ep) :
    getOrCreateSessionByProjectUUID env st x u p =
      { store := { rows := st.rows ++ [runningRecord env st x u p ep], nextId := st.nextId + 1 }
        record := some (runningRecord env st x u p ep)
        applyCalls := 1, extCalls := (createDevContainer env x p u).extCalls
        httpStatus := 200 } := by
  simp only [getOrCreateSessionByProjectUUID, if_neg (by simp [hx] : ¬ ((x == "") = true)),
    hnone, hd]
  rw [insertUnique_eq_some (by exact hnone)]
  rfl

/-- After a soft delete, no non-deleted row carries the deleted id. -/
lemma findById_softDelete (st : Store) (i : Nat) :
    findById (softDelete st i) i = none := by
  apply List.find?_eq_none.mpr
  intro a ha
  obtain ⟨b, _, rfl⟩ := List.mem_map.mp ha
  by_cases hid : (b.id == i && !b.deleted) = true
  · rw [if_pos hid]
    simp
  · rw [if_neg hid]
    exact hid

/-- A predicate holding for at most one row makes any two satisfying
members of the list equal. -/
lemma countP_le_one_unique {α : Type} {p : α → Bool} {l : List α}
    (h : l.countP p ≤ 1) {a b : α} (ha : a ∈ l) (hb : b ∈ l)
    (hpa : p a = true) (hpb : p b = true) : a = b := by
  rw [List.countP_eq_length_filter] at h
  exact mem_eq_of_length_le_one h (List.mem_filter.mpr ⟨ha, hpa⟩)
    (List.mem_filter.mpr ⟨hb, hpb⟩)

/-- Soft-deleting the (unique) active row of a project identity leaves
no active row for that identity. -/
lemma findActive_softDelete_of_unique {st : Store} {x : String} {i : Nat} {s : Session}
    (hfind : findById st i = some s) (hact : activeFor x s = true)
    (huniq : countActive st x ≤ 1) :
    findActive (softDelete st i) x = none := by
  have hprop := List.find?_some hfind
  simp only [Bool.and_eq_true, beq_iff_eq, Bool.not_eq_true'] at hprop
  have hsmem : s ∈ st.rows := List.mem_of_find?_eq_some hfind
  apply List.find?_eq_none.mpr
  intro a ha
  obtain ⟨b, hb, rfl⟩ := List.mem_map.mp ha
  by_cases hid : (b.id == i && !b.deleted) = true
  · rw [if_pos hid]
    simp [activeFor]
  · rw [if_neg hid]
    intro hpb
    apply hid
    have hbs : b = s := countP_le_one_unique huniq hb hsmem hpb hact
    rw [hbs, hprop.1, hprop.2]
    simp

/-- Soft deletion never increases the number of active rows of any
project identity. -/
lemma countActive_softDelete_le (st : Store) (i : Nat) (x : String) :
    countActive (softDelete st i) x ≤ countActive st x := by
  unfold countActive softDelete
  rw [List.countP_map]
  apply List.countP_mono_left
  intro b _ hb
  simp only [Function.comp] at hb
  by_cases hid : (b.id == i && !b.deleted) = true
  · rw [if_pos hid] at hb
    simp [activeFor] at hb
  · rw [if_neg hid] at hb
    exact hb

/-- A successful guarded insert preserves the at-most-one-active-row
invariant. -/
lemma countActive_insertUnique {st st2 : Store} {s stored : Session}
    (h : insertUnique st s = some (st2, stored)) (x : String)
    (hinv : countActive st x ≤ 1) : countActive st2 x ≤ 1 := by
  unfold insertUnique at h
  by_cases hc : (s.isActive && !s.deleted && (findActive st s.projectUUID).isSome) = true
  · rw [if_pos hc] at h
    cases h
  · rw [if_neg hc] at h
    simp only [Option.some.injEq, Prod.mk.injEq] at h
    obtain ⟨hst2, _⟩ := h
    rw [← hst2]
    unfold countActive at *
    rw [List.countP_append]
    by_cases hpa : activeFor x { s with id := st.nextId } = true
    · have hfields := hpa
      simp only [activeFor, Bool.and_eq_true, beq_iff_eq, Bool.not_eq_true'] at hfields
      have hnone : findActive st s.projectUUID = none := by
        cases hfa : findActive st s.projectUUID with
        | none => rfl
        | some v =>
          exfalso
          apply hc
          rw [hfa]
          simp [hfields.1.2, hfields.2]
      have h0 : List.countP (activeFor x) st.rows = 0 := by
        apply List.countP_eq_zero.mpr
        rw [← hfields.1.1]
        exact List.find?_eq_none.mp hnone
      rw [h0]
      simp [List.countP_cons, hpa]
    · have h1 : List.countP (activeFor x) [{ s with id := st.nextId }] = 0 := by
        simp [List.countP_cons, hpa]
      omega

/-- Appending a fresh active row for an identity with no active row
keeps every identity at no more than one active row. -/
lemma countActive_append_active {st : Store} {x : String} {rec : Session} {n : Nat}
    (hnone : findActive st x = none) (hrec : activeFor x rec = true) (y : String)
    (hinv : countActive st y ≤ 1) :
    countActive { rows := st.rows ++ [rec], nextId := n } y ≤ 1 := by
  unfold countActive at hinv ⊢
  rw [List.countP_append]
  by_cases hy : activeFor y rec = true
  · have h1 := hy
    have h2 := hrec
    simp only [activeFor, Bool.and_eq_true, beq_iff_eq] at h1 h2
    have hxy : y = x := by rw [← h1.1.1, h2.1.1]
    subst hxy
    have h0 : List.countP (activeFor y) st.rows = 0 :=
      List.countP_eq_zero.mpr (List.find?_eq_none.mp hnone)
    rw [h0]
    simp [List.countP_cons, hy]
  · have h1 : List.countP (activeFor y) [rec] = 0 := by
      simp [List.countP_cons, hy]
    omega

/-- The store after `CreateSession` is either untouched or the result
of one successful guarded insert. -/
lemma createSession_store_cases (env : Env) (st : Store) (input : Session) :
    (createSession env st input).store = st ∨
    ∃ st2 stored,
      insertUnique st ((appliedSession env (preparedSession env input)).1) =
        some (st2, stored) ∧
      (createSession env st input).store = st2 := by
  unfold createSession
  split
  · left
    rfl
  · split
    · left
      rfl
    · next st2 stored hins =>
      right
      exact ⟨st2, stored, hins, rfl⟩

/-- The store after `DeleteSession` is either untouched or a soft
delete. -/
lemma deleteSession_store_cases (env : Env) (st : Store) (i : Nat) :
    (deleteSession env st i).store = st ∨
    (deleteSession env st i).store = softDelete st i := by
  cases hf : findById st i with
  | none =>
    left
    simp [deleteSession, hf]
  | some s =>
    right
    simp [deleteSession, hf]

/-- The creation path always persists a record that the active-lookup
predicate accepts, appending it to the store with the driver invoked
exactly once. -/
lemma getOrCreate_create_shape (env : Env) (st : Store) (x : String) (u p : Nat)
    (hx : ¬ x = "") (hnone : findActive st x = none) :
    ∃ rec : Session, activeFor x rec = true ∧
      getOrCreateSessionByProjectUUID env st x u p =
        { store := { rows := st.rows ++ [rec], nextId := st.nextId + 1 }
          record := some rec, applyCalls := 1
          extCalls := (createDevContainer env x p u).extCalls, httpStatus := 200 } := by
  rcases hres : (createDevContainer env x p u).result with e | ep
  · exact ⟨errorRecord env st x u p, by simp [activeFor, errorRecord],
      getOrCreate_error_case env st x u p hx hnone hres⟩
  · exact ⟨runningRecord env st x u p ep, by simp [activeFor, runningRecord],
      getOrCreate_ok_case env st x u p hx hnone hres⟩

/-- The fast path of `GetOrCreateSessionByProjectUUID`: an existing
active record is returned as-is, with no driver call and no write. -/
lemma getOrCreate_fast_path (env : Env) (st : Store) (x : String) (u p : Nat)
    (hx : ¬ x = "") {s : Session} (hs : findActive st x = some s) :
    getOrCreateSessionByProjectUUID env st x u p =
      { store := st, record := some s, applyCalls := 0, extCalls := 0
        httpStatus := 200 } := by
  simp only [getOrCreateSessionByProjectUUID, if_neg (by simp [hx] : ¬ ((x == "") = true)), hs]

/-- Every single API operation preserves the at-most-one-active-row
invariant. -/
lemma stepOp_preserves (st : Store) (op : Op) (hinv : ∀ y, countActive st y ≤ 1) :
    ∀ y, countActive (stepOp st op) y ≤ 1 := by
  intro y
  cases op with
  | getOrCreate env x u p =>
    simp only [stepOp]
    by_cases hx : x = ""
    · subst hx
      exact hinv y
    · cases hfa : findActive st x with
      | some s =>
        rw [getOrCreate_fast_path env st x u p hx hfa]
        exact hinv y
      | none =>
        obtain ⟨rec, hrec, h1⟩ := getOrCreate_create_shape env st x u p hx hfa
        rw [h1]
        exact countActive_append_active hfa hrec y (hinv y)
  | create env input =>
    simp only [stepOp]
    rcases createSession_store_cases env st input with h | ⟨st2, stored, hins, h⟩ <;> rw [h]
    · exact hinv y
    · exact countActive_insertUnique hins y (hinv y)
  | delete env i =>
    simp only [stepOp]
    rcases deleteSession_store_cases env st i with h | h <;> rw [h]
    · exact hinv y
    · exact le_trans (countActive_softDelete_le st i y) (hinv y)

/-! ### Claim theorems -/

/-- C1: when an active record exists for a (non-empty) project
identity, `GetOrCreate` returns it unchanged, with no `Apply`, no
endpoint resolution and no store write; consequently, starting from a
store with no active record for the identity, two sequential
`GetOrCreate` calls (under possibly different external conditions)
return the same record and the same store, the first invoking the
Driver exactly once and the second not at all. -/
theorem getOrCreate_idempotent (env1 env2 : Env) (st : Store) (x : String) (u p : Nat)
    (hx : ¬ x = "") :
    (∀ s, findActive st x = some s →
       getOrCreateSessionByProjectUUID env1 st x u p =
         { store := st, record := some s, applyCalls := 0, extCalls := 0
           httpStatus := 200 }) ∧
    (findActive st x = none →
       (getOrCreateSessionByProjectUUID env2
           (getOrCreateSessionByProjectUUID env1 st x u p).store x u p).record =
         (getOrCreateSessionByProjectUUID env1 st x u p).record ∧
       (getOrCreateSessionByProjectUUID env2
           (getOrCreateSessionByProjectUUID env1 st x u p).store x u p).store =
         (getOrCreateSessionByProjectUUID env1 st x u p).store ∧
       (getOrCreateSessionByProjectUUID env1 st x u p).applyCalls = 1 ∧
       (getOrCreateSessionByProjectUUID env2
           (getOrCreateSessionByProjectUUID env1 st x u p).store x u p).applyCalls = 0 ∧
       (getOrCreateSessionByProjectUUID env2
           (getOrCreateSessionByProjectUUID env1 st x u p).store x u p).extCalls = 0) := by
  refine ⟨fun s hs => getOrCreate_fast_path env1 st x u p hx hs, fun hnone => ?_⟩
  obtain ⟨rec, hrec, h1⟩ := getOrCreate_create_shape env1 st x u p hx hnone
  have hfind : findActive (getOrCreateSessionByProjectUUID env1 st x u p).store x =
      some rec := by
    rw [h1]
    exact find?_append_singleton hnone hrec
  have h2 := getOrCreate_fast_path env2 _ x u p hx hfind
  rw [h2, h1]
  exact ⟨rfl, rfl, rfl, rfl, rfl⟩

/-- C1 witness: the two-call consequence evaluated on the empty store
with a concrete identity and environment. -/
theorem getOrCreate_idempotent_check :
    ((getOrCreateSessionByProjectUUID envOkResolve
        (getOrCreateSessionByProjectUUID envOkResolve Store.empty
          ("11111111-1111-1111-1111-111111111111") 1 2).store
        ("11111111-1111-1111-1111-111111111111") 1 2).record =
      (getOrCreateSessionByProjectUUID envOkResolve Store.empty
        ("11111111-1111-1111-1111-111111111111") 1 2).record) ∧
    (getOrCreateSessionByProjectUUID envOkResolve Store.empty
        ("11111111-1111-1111-1111-111111111111") 1 2).applyCalls = 1 := by
  have h := (getOrCreate_idempotent envOkResolve envOkResolve Store.empty
      ("11111111-1111-1111-1111-111111111111") 1 2 (by decide)).2 (by decide)
  exact ⟨h.1, h.2.2.1⟩

/-- C4: a `GetOrCreate` that finds no active record and whose driver
call fails — malformed identity or helm failure (timeouts included) —
still persists and returns a record with `status="error"` and empty
endpoint addresses, answering 200 rather than a transport error; for a
malformed identity no external process call is attempted. -/
theorem getOrCreate_absorbs_failures (env : Env) (st : Store) (x : String) (u p : Nat)
    (hx : ¬ x = "") (hnone : findActive st x = none)
    (hfail : isValidProjectUUID x = false ∨ env.applyErr = true) :
    (getOrCreateSessionByProjectUUID env st x u p).httpStatus = 200 ∧
    ((getOrCreateSessionByProjectUUID env st x u p).record.map Session.status) =
      some ("error") ∧
    ((getOrCreateSessionByProjectUUID env st x u p).record.map Session.previewURL) =
      some ("") ∧
    ((getOrCreateSessionByProjectUUID env st x u p).record.map Session.chatURL) =
      some ("") ∧
    ((getOrCreateSessionByProjectUUID env st x u p).record.map Session.vscodeURL) =
      some ("") ∧
    (∃ t, (getOrCreateSessionByProjectUUID env st x u p).record = some t ∧
      t ∈ (getOrCreateSessionByProjectUUID env st x u p).store.rows) ∧
    (isValidProjectUUID x = false →
      (getOrCreateSessionByProjectUUID env st x u p).extCalls = 0) := by
  obtain ⟨e, hd⟩ : ∃ e, (createDevContainer env x p u).result = Except.error e := by
    rcases hfail with h | h
    · exact ⟨"invalid project UUID format: " ++ x, by simp [createDevContainer, h]⟩
    · rcases Bool.eq_false_or_eq_true (isValidProjectUUID x) with hv | hv
      · exact ⟨"helm install failed", by simp [createDevContainer, hv, h]⟩
      · exact ⟨"invalid project UUID format: " ++ x, by simp [createDevContainer, hv]⟩
  have h1 := getOrCreate_error_case env st x u p hx hnone hd
  rw [h1]
  refine ⟨rfl, rfl, rfl, rfl, rfl, ⟨errorRecord env st x u p, rfl, ?_⟩, fun hv => ?_⟩
  · exact List.mem_append_right _ (List.mem_singleton.mpr rfl)
  · simp [createDevContainer, hv]

/-- C4 witness: the malformed-identity case of the absorption theorem
evaluated at the spec's own scenario input. -/
theorem getOrCreate_absorbs_failures_check :
    (getOrCreateSessionByProjectUUID envOkResolve Store.empty ("not-a-uuid") 1 2).httpStatus
      = 200 ∧
    ((getOrCreateSessionByProjectUUID envOkResolve Store.empty
        ("not-a-uuid") 1 2).record.map Session.status) = some ("error") ∧
    (getOrCreateSessionByProjectUUID envOkResolve Store.empty ("not-a-uuid") 1 2).extCalls
      = 0 := by
  have h := getOrCreate_absorbs_failures envOkResolve Store.empty ("not-a-uuid") 1 2
    (by decide) (by decide) (Or.inl (by decide))
  exact ⟨h.1, h.2.1, h.2.2.2.2.2.2 (by decide)⟩

/-- C5: when `Apply` succeeds but the endpoint resolution degrades —
the kubectl query fails or prints an empty or `<none>` address — the
persisted record still has `status="running"`, all three endpoint
addresses empty, and the three static route paths `/preview`, `/chat`,
`/vscode`. -/
theorem getOrCreate_degraded_running (env : Env) (st : Store) (x : String) (u p : Nat)
    (hx : ¬ x = "") (hnone : findActive st x = none)
    (hvalid : isValidProjectUUID x = true) (happly : env.applyErr = false)
    (hres : env.kubectlErr = true ∨ trimString env.kubectlOutput = "" ∨
      trimString env.kubectlOutput = "<none>") :
    ((getOrCreateSessionByProjectUUID env st x u p).record.map Session.status) =
      some ("running") ∧
    ((getOrCreateSessionByProjectUUID env st x u p).record.map Session.previewURL) =
      some ("") ∧
    ((getOrCreateSessionByProjectUUID env st x u p).record.map Session.chatURL) =
      some ("") ∧
    ((getOrCreateSessionByProjectUUID env st x u p).record.map Session.vscodeURL) =
      some ("") ∧
    ((getOrCreateSessionByProjectUUID env st x u p).record.map Session.previewPath) =
      some ("/preview") ∧
    ((getOrCreateSessionByProjectUUID env st x u p).record.map Session.chatPath) =
      some ("/chat") ∧
    ((getOrCreateSessionByProjectUUID env st x u p).record.map Session.vscodePath) =
      some ("/vscode") := by
  have hep : getServiceEndpoints env =
      { previewURL := "", previewPath := "/preview", chatURL := "", chatPath := "/chat"
        vscodeURL := "", vscodePath := "/vscode", clusterIP := "" } := by
    unfold getServiceEndpoints
    rcases hres with h | h | h <;> simp [h]
  have hd : (createDevContainer env x p u).result = .ok (getServiceEndpoints env) := by
    simp [createDevContainer, hvalid, happly]
  rw [hep] at hd
  have h1 := getOrCreate_ok_case env st x u p hx hnone hd
  rw [h1]
  exact ⟨rfl, rfl, rfl, rfl, rfl, rfl, rfl⟩

/-- C5 witness: the degraded-running theorem evaluated with a kubectl
query that prints the `<none>` sentinel. -/
theorem getOrCreate_degraded_running_check :
    ((getOrCreateSessionByProjectUUID { envOkResolve with kubectlOutput := "<none>" }
        Store.empty ("11111111-1111-1111-1111-111111111111") 1 2).record.map
          Session.status) = some ("running") ∧
    ((getOrCreateSessionByProjectUUID { envOkResolve with kubectlOutput := "<none>" }
        Store.empty ("11111111-1111-1111-1111-111111111111") 1 2).record.map
          Session.previewURL) = some ("") ∧
    ((getOrCreateSessionByProjectUUID { envOkResolve with kubectlOutput := "<none>" }
        Store.empty ("11111111-1111-1111-1111-111111111111") 1 2).record.map
          Session.previewPath) = some ("/preview") := by
  have h := getOrCreate_degraded_running { envOkResolve with kubectlOutput := "<none>" }
    Store.empty ("11111111-1111-1111-1111-111111111111") 1 2
    (by decide) (by decide) (by decide) (by decide) (Or.inr (Or.inr (by decide)))
  exact ⟨h.1, h.2.1, h.2.2.2.2.1⟩

/-- C2 counterexample: the Driver's `Remove` (`DeleteDevContainer`) and
`Status` (`GetContainerStatus`), called with the malformed identity
`""`, do **not** return an invalid-identity error and each attempt the
external helm call (one external process invocation), contradicting the
claim that every Driver operation validates the identity first. -/
theorem remove_and_status_skip_validation :
    isValidProjectUUID ("") = false ∧
    (deleteDevContainer envOkResolve ("")).extCalls = 1 ∧
    (deleteDevContainer envOkResolve ("")).result = Except.ok () ∧
    (getContainerStatus envOkResolve ("") ("dev-session-")).extCalls = 1 ∧
    (getContainerStatus envOkResolve ("") ("dev-session-")).result =
      Except.ok (translateHelmStatus (envOkResolve.statusRaw)) :=
  ⟨rfl, rfl, rfl, rfl, rfl⟩

/-- C2 (amended): only `Apply` (`CreateDevContainer`) rejects a
malformed identity — it returns the `invalid project UUID format` error
with zero external calls — while `Remove` (`DeleteDevContainer`) and
`Status` (`GetContainerStatus`) perform no identity validation and
always attempt their external helm call. -/
theorem apply_validates_identity (env : Env) (id : String) (pid uid : Nat)
    (h : isValidProjectUUID id = false) :
    createDevContainer env id pid uid =
      { result := .error ("invalid project UUID format: " ++ id), extCalls := 0 } ∧
    (deleteDevContainer env id).extCalls = 1 ∧
    (getContainerStatus env id ("dev-session-" ++ id)).extCalls = 1 := by
  refine ⟨?_, ?_, ?_⟩
  · simp [createDevContainer, h]
  · unfold deleteDevContainer
    split <;> rfl
  · unfold getContainerStatus
    split
    · rfl
    · split <;> rfl

/-- C2 witness: the amended theorem applied at the truncated token from
the repository's own test table. -/
theorem apply_validates_identity_check :
    createDevContainer envOkResolve ("550e8400-e29b-41d4-a716") 456 789 =
      { result := .error ("invalid project UUID format: " ++ "550e8400-e29b-41d4-a716")
        extCalls := 0 } ∧
    (deleteDevContainer envOkResolve ("550e8400-e29b-41d4-a716")).extCalls = 1 ∧
    (getContainerStatus envOkResolve ("550e8400-e29b-41d4-a716")
        ("dev-session-" ++ "550e8400-e29b-41d4-a716")).extCalls = 1 :=
  apply_validates_identity envOkResolve ("550e8400-e29b-41d4-a716") 456 789 (by decide)

/-- C3 counterexample: the status translation maps the unrecognized
raw status `"bogus-status"` to `"unknown"`, which is not `"error"` and
not one of the four enum values `pending/running/stopped/error`,
contradicting the claim that unrecognized inputs map to `error`. -/
theorem translate_unrecognized_is_unknown :
    translateHelmStatus ("bogus-status") = "unknown" ∧
    translateHelmStatus ("") = "unknown" ∧
    translateHelmStatus ("bogus-status") ∉
      (["pending", "running", "stopped", "error"] : List String) := by
  refine ⟨rfl, rfl, ?_⟩
  decide

/-- C3 (amended): the status translation is total — for every input
string, including the empty string, it returns one of the **five**
values `pending/running/stopped/error/unknown` without failing — and
every input whose lowercase form is not in the recognized helm
vocabulary maps to `"unknown"` (not `"error"`). -/
theorem translateHelmStatus_total (s : String) :
    (translateHelmStatus s = "pending" ∨ translateHelmStatus s = "running" ∨
     translateHelmStatus s = "stopped" ∨ translateHelmStatus s = "error" ∨
     translateHelmStatus s = "unknown") ∧
    (lowerString s ∉ recognizedHelmStatuses → translateHelmStatus s = "unknown") := by
  constructor
  · simp only [translateHelmStatus]
    split_ifs <;> simp
  · intro hmem
    simp only [translateHelmStatus]
    split_ifs <;> simp_all [recognizedHelmStatuses]

/-- C3 witness: totality and the unknown-default evaluated at a
concrete unrecognized raw status. -/
theorem translateHelmStatus_total_check :
    (translateHelmStatus ("superseded") = "pending" ∨
     translateHelmStatus ("superseded") = "running" ∨
     translateHelmStatus ("superseded") = "stopped" ∨
     translateHelmStatus ("superseded") = "error" ∨
     translateHelmStatus ("superseded") = "unknown") ∧
    translateHelmStatus ("superseded") = "unknown" := by
  have h := translateHelmStatus_total ("superseded")
  exact ⟨h.1, h.2 (by decide)⟩

/-- C9: `GetOrCreate` of project identity
`11111111-1111-1111-1111-111111111111` for user 1 and project 2, with a
driver whose helm install succeeds and whose kubectl resolution prints
`10.0.0.5`, persists and returns a record with `status=running` and the
three endpoint URLs `http://10.0.0.5/preview`, `http://10.0.0.5/chat`,
`http://10.0.0.5/vscode`. -/
theorem getOrCreate_success_scenario :
    ((getOrCreateSessionByProjectUUID envOkResolve Store.empty
        ("11111111-1111-1111-1111-111111111111") 1 2).record.map Session.status)
      = some ("running") ∧
    ((getOrCreateSessionByProjectUUID envOkResolve Store.empty
        ("11111111-1111-1111-1111-111111111111") 1 2).record.map Session.previewURL)
      = some ("http://10.0.0.5/preview") ∧
    ((getOrCreateSessionByProjectUUID envOkResolve Store.empty
        ("11111111-1111-1111-1111-111111111111") 1 2).record.map Session.chatURL)
      = some ("http://10.0.0.5/chat") ∧
    ((getOrCreateSessionByProjectUUID envOkResolve Store.empty
        ("11111111-1111-1111-1111-111111111111") 1 2).record.map Session.vscodeURL)
      = some ("http://10.0.0.5/vscode") ∧
    (getOrCreateSessionByProjectUUID envOkResolve Store.empty
        ("11111111-1111-1111-1111-111111111111") 1 2).httpStatus = 200 := by
  decide

/-- C6: in every store reachable from the fresh database by any
sequence of `GetOrCreate`, `CreateSession` and `Delete` operations, at
most one active (non-soft-deleted) session record exists per distinct
project identity — the inserts are guarded by the spec-mandated
uniqueness constraint on the active record's project identity, and no
operation can break the invariant. -/
theorem unique_active_per_identity (ops : List Op) (x : String) :
    countActive (runOps ops) x ≤ 1 := by
  suffices h : ∀ st : Store, (∀ y, countActive st y ≤ 1) →
      ∀ y, countActive (ops.foldl stepOp st) y ≤ 1 by
    refine h Store.empty (fun y => ?_) x
    simp [countActive, Store.empty]
  induction ops with
  | nil =>
    intro st h y
    exact h y
  | cons op t ih =>
    intro st h y
    exact ih (stepOp st op) (stepOp_preserves st op h) y

/-- C7: deleting an existing session that carries a project identity
soft-deletes the record and answers 204 even when the driver's removal
(helm uninstall) fails — the removal is attempted exactly once, its
error is only logged, and it never blocks the soft delete. -/
theorem deleteSession_removal_failure_nonblocking (env : Env) (st : Store) (i : Nat)
    {s : Session} (hfind : findById st i = some s) (huuid : ¬ s.projectUUID = "")
    (herr : env.removeErr = true) :
    (deleteSession env st i).httpStatus = 204 ∧
    (deleteSession env st i).removeCalls = 1 ∧
    (deleteDevContainer env s.projectUUID).result =
      Except.error ("helm uninstall failed") ∧
    (deleteSession env st i).store = softDelete st i ∧
    findById (deleteSession env st i).store i = none := by
  have hne : (s.projectUUID != "") = true := by
    simp [huuid]
  refine ⟨?_, ?_, by simp [deleteDevContainer, herr], ?_, ?_⟩
  · simp [deleteSession, hfind]
  · simp [deleteSession, hfind, hne]
  · simp [deleteSession, hfind]
  · have h : (deleteSession env st i).store = softDelete st i := by
      simp [deleteSession, hfind]
    rw [h]
    exact findById_softDelete st i

/-- C7 witness: deleting the sample active record under a failing helm
uninstall still answers 204 and soft-deletes the row. -/
theorem deleteSession_removal_failure_nonblocking_check :
    (deleteSession { envOkResolve with removeErr := true } sampleStore 1).httpStatus
      = 204 ∧
    findById (deleteSession { envOkResolve with removeErr := true } sampleStore 1).store 1
      = none := by
  have h := deleteSession_removal_failure_nonblocking
    { envOkResolve with removeErr := true } sampleStore 1 (s := sampleActive)
    (by decide) (by decide) (by decide)
  exact ⟨h.1, h.2.2.2.2⟩

/-- C8: after deleting the active record of a project identity (under
the invariant that the identity had at most one active record), the
identity has no active record left, and a subsequent `GetOrCreate` for
it takes the creation path: it answers 200 and persists a fresh record
carrying that identity, with no uniqueness conflict. -/
theorem delete_releases_identity (env env2 : Env) (st : Store) (i : Nat) (u p : Nat)
    {s : Session} (hfind : findById st i = some s) (hactive : s.isActive = true)
    (hx : ¬ s.projectUUID = "") (huniq : countActive st s.projectUUID ≤ 1) :
    findActive (deleteSession env st i).store s.projectUUID = none ∧
    (getOrCreateSessionByProjectUUID env2 (deleteSession env st i).store
        s.projectUUID u p).httpStatus = 200 ∧
    (∃ t, (getOrCreateSessionByProjectUUID env2 (deleteSession env st i).store
        s.projectUUID u p).record = some t ∧
      t.projectUUID = s.projectUUID ∧
      t ∈ (getOrCreateSessionByProjectUUID env2 (deleteSession env st i).store
        s.projectUUID u p).store.rows) := by
  have hprop := List.find?_some hfind
  simp only [Bool.and_eq_true, beq_iff_eq, Bool.not_eq_true'] at hprop
  have hact : activeFor s.projectUUID s = true := by
    simp [activeFor, hactive, hprop.2]
  have hstore : (deleteSession env st i).store = softDelete st i := by
    simp [deleteSession, hfind]
  have hnone : findActive (softDelete st i) s.projectUUID = none :=
    findActive_softDelete_of_unique hfind hact huniq
  rw [hstore]
  obtain ⟨rec, hrec, h1⟩ :=
    getOrCreate_create_shape env2 (softDelete st i) s.projectUUID u p hx hnone
  rw [h1]
  refine ⟨hnone, rfl, rec, rfl, ?_, ?_⟩
  · have h2 := hrec
    simp only [activeFor, Bool.and_eq_true, beq_iff_eq] at h2
    exact h2.1.1
  · exact List.mem_append_right _ (List.mem_singleton.mpr rfl)

/-- C8 witness: deleting the sample record then re-running
`GetOrCreate` for its identity creates a fresh record with a 200
answer. -/
theorem delete_releases_identity_check :
    findActive (deleteSession envOkResolve sampleStore 1).store
      ("11111111-1111-1111-1111-111111111111") = none ∧
    (getOrCreateSessionByProjectUUID envOkResolve
        (deleteSession envOkResolve sampleStore 1).store
        ("11111111-1111-1111-1111-111111111111") 1 2).httpStatus = 200 := by
  have h := delete_releases_identity envOkResolve envOkResolve sampleStore 1 1 2
    (s := sampleActive) (by decide) (by decide) (by decide) (by decide)
  exact ⟨h.1, h.2.1⟩

end PayPilot
